/-
A verification development for the document-intelligence platform:
shallow embedding, in Lean 4, of the frontend document service
(src/frontend/lib and src/unnamed/part_004), the Pub/Sub subscription
configuration (src/terraform/11-pubsub.tf), and — where the backend
services are not part of the repository — models built from the
specification for the document store, the queue semantics and the
summarization worker.
-/

import Mathlib

set_option autoImplicit false

namespace DocPlatform

/-! ### Document status (src/frontend/lib/types.ts, `DocumentStatus`) -/

/-- The five document lifecycle states, exactly the members of the
`DocumentStatus` union type in src/frontend/lib/types.ts. -/
inductive DocumentStatus where
  | uploading
  | processing_extraction
  | processing_summary
  | completed
  | failed
deriving DecidableEq, Repr

/-- `completed` and `failed` are the terminal states. -/
def DocumentStatus.isTerminal : DocumentStatus → Bool
  | .completed => true
  | .failed => true
  | _ => false

/-- Position of a status along the forward direction of the lifecycle:
`uploading → processing_extraction → processing_summary → completed`,
with `failed` strictly after every non-terminal state. -/
def DocumentStatus.rank : DocumentStatus → Nat
  | .uploading => 0
  | .processing_extraction => 1
  | .processing_summary => 2
  | .completed => 3
  | .failed => 4

/-- Modelled from the spec: the backend status state machine (§4.3).
The backend services that write `status` are not part of the repository
source; the transition graph is taken from the specification:
`uploading → processing_extraction → processing_summary → completed`,
with `failed` reachable from any non-terminal state, and no transition
out of a terminal state. -/
inductive StatusWrite : DocumentStatus → DocumentStatus → Prop where
  | upload_to_extraction :
      StatusWrite .uploading .processing_extraction
  | extraction_to_summary :
      StatusWrite .processing_extraction .processing_summary
  | summary_to_completed :
      StatusWrite .processing_summary .completed
  | to_failed (s : DocumentStatus) (h : s.isTerminal = false) :
      StatusWrite s .failed

end DocPlatform

namespace DocPlatform

/-! ### C1: status moves forward, terminal states absorb -/

theorem statusWrite_rank_lt (s t : DocumentStatus) (h : StatusWrite s t) :
    s.rank < t.rank := by
  cases h with
  | upload_to_extraction => decide
  | extraction_to_summary => decide
  | summary_to_completed => decide
  | to_failed s hs => cases s <;> simp_all [DocumentStatus.isTerminal] <;> decide

theorem statusWrite_not_from_terminal (s t : DocumentStatus)
    (hs : s.isTerminal = true) : ¬ StatusWrite s t := by
  intro h
  cases h with
  | upload_to_extraction => simp [DocumentStatus.isTerminal] at hs
  | extraction_to_summary => simp [DocumentStatus.isTerminal] at hs
  | summary_to_completed => simp [DocumentStatus.isTerminal] at hs
  | to_failed s h => rw [h] at hs; exact Bool.false_ne_true hs

/-- C1: every single status write moves strictly forward in the transition
graph, so for any pair of successive writes the second status is strictly
after the first; any chain of writes is monotone in rank; and once a
document is `completed` or `failed` no operation writes `status` again. -/
theorem claim_C1_status_monotone_terminal_absorbing :
    (∀ s t : DocumentStatus, StatusWrite s t → s.rank < t.rank) ∧
    (∀ s t : DocumentStatus, Relation.ReflTransGen StatusWrite s t →
        s.rank ≤ t.rank) ∧
    (∀ s t : DocumentStatus, s.isTerminal = true → ¬ StatusWrite s t) := by
  refine ⟨statusWrite_rank_lt, ?_, statusWrite_not_from_terminal⟩
  intro s t h
  induction h with
  | refl => exact le_refl _
  | tail _ hstep ih =>
      exact le_trans ih (le_of_lt (statusWrite_rank_lt _ _ hstep))

/-- Concrete instantiation of C1: the upload-to-extraction write moves
forward, a full successful chain is monotone, and a completed document
admits no further status write. -/
theorem claim_C1_witness :
    DocumentStatus.rank .uploading < DocumentStatus.rank .processing_extraction ∧
    DocumentStatus.rank .uploading ≤ DocumentStatus.rank .completed ∧
    ¬ StatusWrite .completed .failed :=
  ⟨claim_C1_status_monotone_terminal_absorbing.1 _ _ .upload_to_extraction,
   claim_C1_status_monotone_terminal_absorbing.2.1 _ _
     (Relation.ReflTransGen.head .upload_to_extraction
       (Relation.ReflTransGen.head .extraction_to_summary
         (Relation.ReflTransGen.single .summary_to_completed))),
   claim_C1_status_monotone_terminal_absorbing.2.2 _ _ rfl⟩

end DocPlatform

namespace DocPlatform

/-! ### Status polling (src/unnamed/part_004, `DocumentService.startStatusPolling`,
with configuration from src/frontend/lib/api-config.ts `POLLING_CONFIG`) -/

/-- Response shape of the document fetch, from src/frontend/lib/types.ts
`DocumentStatusResponse`. -/
structure DocumentStatusResponse where
  document_id : String
  image_name : String
  status : DocumentStatus
  extracted_text : String
  summary : Option String
  s3_url : Option String
  created_at : String
  updated_at : Option String
deriving DecidableEq, Repr

/-- `POLLING_CONFIG.INTERVAL` (3000 ms) from src/frontend/lib/api-config.ts. -/
def POLLING_INTERVAL : ℚ := 3000

/-- `POLLING_CONFIG.MAX_RETRIES` (100) from src/frontend/lib/api-config.ts. -/
def POLLING_MAX_RETRIES : ℕ := 100

/-- `POLLING_CONFIG.BACKOFF_FACTOR` (1.2) from src/frontend/lib/api-config.ts,
as the exact rational 6/5. -/
def POLLING_BACKOFF_FACTOR : ℚ := 6 / 5

/-- The mutable locals of the `poll` closure in `startStatusPolling`:
`retryCount` and `currentInterval` (milliseconds). -/
structure PollState where
  retryCount : ℕ
  currentInterval : ℚ
deriving DecidableEq, Repr

/-- `startStatusPolling` initialises `retryCount = 0` and
`currentInterval = POLLING_CONFIG.INTERVAL`. -/
def initialPollState : PollState := ⟨0, POLLING_INTERVAL⟩

/-- What one run of the `poll` closure does next: either the session stops
(with `some msg` when stopping calls `onError(new Error(msg))`), or a next
poll is scheduled after `delay` milliseconds with updated locals. -/
inductive PollOutcome where
  | stopped (errorMessage : Option String)
  | next (delay : ℚ) (state : PollState)
deriving DecidableEq, Repr

/-- One execution of the `poll` closure of `DocumentService.startStatusPolling`
(src/unnamed/part_004, lines 152–196) as a pure step function of the closure
state and the result of the `getDocument` fetch.  On a successful fetch of a
`completed` or `failed` document the session stops; on any other successful
fetch the retry count and interval reset and the next poll is scheduled at the
base interval; on a failed fetch the retry count increments, the session stops
with "Max polling retries reached" once it reaches `MAX_RETRIES`, and
otherwise the interval multiplies by the backoff factor clamped at 30000 ms. -/
def pollStep (s : PollState) (fetched : Except String DocumentStatusResponse) :
    PollOutcome :=
  match fetched with
  | .ok doc =>
      if doc.status = .completed ∨ doc.status = .failed then
        .stopped none
      else
        .next POLLING_INTERVAL ⟨0, POLLING_INTERVAL⟩
  | .error _ =>
      let retry := s.retryCount + 1
      if POLLING_MAX_RETRIES ≤ retry then
        .stopped (some "Max polling retries reached")
      else
        let interval := min (s.currentInterval * POLLING_BACKOFF_FACTOR) 30000
        .next interval ⟨retry, interval⟩

/-- The `activePolls` map of `DocumentService` (a JS `Map` from poll id to
timer id), modelled as an association list; `Map.set` replaces any entry
with the same key. -/
def setPoll (polls : List (String × ℕ)) (pollId : String) (timerId : ℕ) :
    List (String × ℕ) :=
  (pollId, timerId) :: polls.filter (fun p => p.1 ≠ pollId)

/-- `DocumentService.stopStatusPolling` (src/unnamed/part_004, lines 208–214):
clears the timer and deletes the map entry for `pollId` (a no-op when the id
is absent). -/
def stopStatusPolling (polls : List (String × ℕ)) (pollId : String) :
    List (String × ℕ) :=
  polls.filter (fun p => p.1 ≠ pollId)

/-- One firing of the polling timer at the service level: runs `pollStep`
and performs the `activePolls` bookkeeping the code does — on stop, the
session's entry is deleted and no further fetch is scheduled (`none`);
otherwise a fresh timer id is registered and the next fetch is scheduled
after the returned delay. -/
def pollTick (polls : List (String × ℕ)) (pollId : String) (s : PollState)
    (fetched : Except String DocumentStatusResponse) (freshTimerId : ℕ) :
    List (String × ℕ) × Option (ℚ × PollState) :=
  match pollStep s fetched with
  | .stopped _ => (stopStatusPolling polls pollId, none)
  | .next delay s' => (setPoll polls pollId freshTimerId, some (delay, s'))

/-- C2: as soon as one poll observes a document whose status is terminal,
the session schedules no further fetch and its timer entry is removed from
the active-polls map. -/
theorem claim_C2_terminal_observation_stops_polling
    (polls : List (String × ℕ)) (pollId : String) (s : PollState)
    (doc : DocumentStatusResponse) (freshTimerId : ℕ)
    (hterm : doc.status = .completed ∨ doc.status = .failed) :
    (pollTick polls pollId s (.ok doc) freshTimerId).2 = none ∧
    ∀ timerId, (pollId, timerId) ∉
      (pollTick polls pollId s (.ok doc) freshTimerId).1 := by
  have hstep : pollStep s (.ok doc) = .stopped none := by
    simp [pollStep, hterm]
  refine ⟨by simp [pollTick, hstep], ?_⟩
  intro timerId hmem
  rw [pollTick, hstep] at hmem
  simp only [stopStatusPolling, List.mem_filter] at hmem
  simp at hmem

/-- Concrete instantiation of C2: a poll of a completed document removes the
session's timer entry and schedules nothing further. -/
theorem claim_C2_witness :
    (pollTick [("report-1", 7)] "report-1" initialPollState
        (.ok ⟨"d1", "report", .completed, "text", some "sum", none, "t0", none⟩)
        8).2 = none ∧
    ("report-1", 9) ∉
      (pollTick [("report-1", 7)] "report-1" initialPollState
        (.ok ⟨"d1", "report", .completed, "text", some "sum", none, "t0", none⟩)
        8).1 :=
  ⟨(claim_C2_terminal_observation_stops_polling _ _ _ _ _ (Or.inl rfl)).1,
   (claim_C2_terminal_observation_stops_polling _ _ _ _ _ (Or.inl rfl)).2 9⟩

/-! ### C8: the polling backoff schedule as a pure function of the failure count -/

/-- The poll state reached after `k` consecutive failed polls of a fresh
session (no successful poll in between), obtained by iterating `pollStep`
on a fetch error.  When the step stops the session the state is left
unchanged (no further state exists). -/
def stateAfterFailures : ℕ → PollState
  | 0 => initialPollState
  | k + 1 =>
      match pollStep (stateAfterFailures k) (.error "network error") with
      | .stopped _ => stateAfterFailures k
      | .next _ s' => s'

/-- Outcome of the `k`-th consecutive failing poll (`k ≥ 1`) of a fresh
session. -/
def failureOutcome (k : ℕ) : PollOutcome :=
  pollStep (stateAfterFailures (k - 1)) (.error "network error")

theorem min_clamp_mul (a : ℚ) :
    min (min a 30000 * (6 / 5)) 30000 = min (a * (6 / 5)) 30000 := by
  rcases le_total a 30000 with h | h
  · rw [min_eq_left h]
  · have h0 : (0 : ℚ) ≤ a := le_trans (by norm_num) h
    have h1 : (30000 : ℚ) ≤ a * (6 / 5) :=
      le_trans h (le_mul_of_one_le_right h0 (by norm_num))
    rw [min_eq_right h,
        min_eq_right (by norm_num : (30000 : ℚ) ≤ 30000 * (6 / 5)),
        min_eq_right h1]

theorem stateAfterFailures_closed (k : ℕ) (hk : k ≤ 99) :
    stateAfterFailures k =
      ⟨k, min (3000 * (6 / 5 : ℚ) ^ k) 30000⟩ := by
  induction k with
  | zero =>
      have : min (3000 * (6 / 5 : ℚ) ^ 0) 30000 = 3000 := by
        rw [pow_zero, mul_one]; exact min_eq_left (by norm_num)
      rw [stateAfterFailures, initialPollState, POLLING_INTERVAL, this]
  | succ k ih =>
      have hk' : k ≤ 99 := Nat.le_of_succ_le hk
      have hret : ¬ (POLLING_MAX_RETRIES ≤ k + 1) := by
        rw [POLLING_MAX_RETRIES]; omega
      rw [stateAfterFailures, ih hk']
      simp only [pollStep, hret, if_false]
      have : min (3000 * (6 / 5 : ℚ) ^ k) 30000 * POLLING_BACKOFF_FACTOR =
          min (3000 * (6 / 5 : ℚ) ^ k) 30000 * (6 / 5) := by
        rw [POLLING_BACKOFF_FACTOR]
      rw [this, min_clamp_mul, mul_assoc, ← pow_succ]

/-- C8: after the `k`-th consecutive failed poll (1 ≤ k ≤ 99) the next poll
is scheduled after exactly `min (3000 · (6/5)^k) 30000` milliseconds; the
100-th consecutive failure stops the session with the error
"Max polling retries reached"; and any successful poll of a non-terminal
document resets the failure count to 0 and the delay to the base interval
of 3000 ms. -/
theorem claim_C8_backoff_schedule :
    (∀ k : ℕ, 1 ≤ k → k ≤ 99 →
        failureOutcome k =
          .next (min (3000 * (6 / 5 : ℚ) ^ k) 30000)
            ⟨k, min (3000 * (6 / 5 : ℚ) ^ k) 30000⟩) ∧
    failureOutcome 100 = .stopped (some "Max polling retries reached") ∧
    (∀ (s : PollState) (doc : DocumentStatusResponse),
        doc.status ≠ .completed → doc.status ≠ .failed →
        pollStep s (.ok doc) = .next POLLING_INTERVAL ⟨0, POLLING_INTERVAL⟩) := by
  refine ⟨?_, ?_, ?_⟩
  · intro k hk1 hk99
    obtain ⟨m, rfl⟩ : ∃ m, k = m + 1 :=
      ⟨k - 1, (Nat.succ_pred_eq_of_pos hk1).symm⟩
    have hm : m ≤ 99 := by omega
    rw [failureOutcome, Nat.add_sub_cancel, stateAfterFailures_closed m hm]
    have hret : ¬ (POLLING_MAX_RETRIES ≤ m + 1) := by
      rw [POLLING_MAX_RETRIES]; omega
    simp only [pollStep, hret, if_false]
    have hb : min (3000 * (6 / 5 : ℚ) ^ m) 30000 * POLLING_BACKOFF_FACTOR =
        min (3000 * (6 / 5 : ℚ) ^ m) 30000 * (6 / 5) := by
      rw [POLLING_BACKOFF_FACTOR]
    rw [hb, min_clamp_mul, mul_assoc, ← pow_succ]
  · rw [failureOutcome]
    have h99 : (100 : ℕ) - 1 = 99 := by omega
    rw [h99, stateAfterFailures_closed 99 (by omega)]
    simp [pollStep, POLLING_MAX_RETRIES]
  · intro s doc h1 h2
    simp [pollStep, h1, h2]

/-- Concrete instantiation of C8: the second consecutive failure schedules
the next poll after `3000 · (6/5)² = 4320` ms, and a successful poll of a
document in `processing_summary` resets the delay to 3000 ms. -/
theorem claim_C8_witness :
    failureOutcome 2 = .next 4320 ⟨2, 4320⟩ ∧
    pollStep ⟨5, 4320⟩
        (.ok ⟨"d1", "report", .processing_summary, "text", none, none, "t0", none⟩) =
      .next POLLING_INTERVAL ⟨0, POLLING_INTERVAL⟩ := by
  refine ⟨?_, claim_C8_backoff_schedule.2.2 _ _ (by decide) (by decide)⟩
  have h := claim_C8_backoff_schedule.1 2 (by omega) (by omega)
  rw [h]
  norm_num [min_eq_left]

end DocPlatform

namespace DocPlatform

/-! ### C4: client-side upload validation
(src/unnamed/part_004, `validateImageFile` / `validatePDFFile`, with the
constants of src/frontend/lib/api-config.ts `UPLOAD_CONSTRAINTS`) -/

/-- A candidate upload: the MIME `type` and `size` (bytes) exposed by the
browser `File` object, together with the page count of the underlying PDF
document (descriptive metadata; a `File` object exposes no page count, so
the validators never read it). -/
structure JSFile where
  type : String
  size : ℕ
  pages : ℕ
deriving DecidableEq, Repr

/-- The `{ isValid, error? }` result shape of both validators. -/
structure ValidationResult where
  isValid : Bool
  error : Option String
deriving DecidableEq, Repr

/-- `UPLOAD_CONSTRAINTS.IMAGE.MAX_SIZE` (5 MB). -/
def IMAGE_MAX_SIZE : ℕ := 5 * 1024 * 1024

/-- `UPLOAD_CONSTRAINTS.IMAGE.ALLOWED_TYPES`. -/
def IMAGE_ALLOWED_TYPES : List String := ["image/png", "image/jpeg", "image/jpg"]

/-- `UPLOAD_CONSTRAINTS.PDF.MAX_SIZE` (10 MB). -/
def PDF_MAX_SIZE : ℕ := 10 * 1024 * 1024

/-- `UPLOAD_CONSTRAINTS.PDF.MAX_PAGES` (20). -/
def PDF_MAX_PAGES : ℕ := 20

/-- JS `String.prototype.startsWith`, embedded on the character sequences of
the two strings. -/
def strStartsWith (s pre : String) : Bool :=
  pre.toList.isPrefixOf s.toList

/-- `DocumentService.validateImageFile` (src/unnamed/part_004, lines 251–264):
rejects when the MIME type does not start with "image/", then when the size
exceeds 5 MB, and accepts otherwise. -/
def validateImageFile (f : JSFile) : ValidationResult :=
  if strStartsWith f.type "image/" = false then
    ⟨false, some "Please select an image file (PNG, JPG, or JPEG)."⟩
  else if IMAGE_MAX_SIZE < f.size then
    ⟨false, some "Image file is too large. Maximum size is 5MB."⟩
  else
    ⟨true, none⟩

/-- `DocumentService.validatePDFFile` (src/unnamed/part_004, lines 269–282):
rejects when the MIME type is not exactly "application/pdf", then when the
size exceeds 10 MB, and accepts otherwise.  The page count is not examined. -/
def validatePDFFile (f : JSFile) : ValidationResult :=
  if f.type ≠ "application/pdf" then
    ⟨false, some "Please select a PDF file."⟩
  else if PDF_MAX_SIZE < f.size then
    ⟨false, some "PDF file is too large. Maximum size is 10MB."⟩
  else
    ⟨true, none⟩

/-- C4 counterexample: a 100-byte `image/gif` file is accepted by
`validateImageFile` although `image/gif` is not among the allowed image
types, and a small 25-page PDF is accepted by `validatePDFFile` although it
exceeds the 20-page limit — so validation does not accept "if and only if"
the file is within the fixed limits of the claim. -/
theorem claim_C4_counterexample :
    (validateImageFile ⟨"image/gif", 100, 1⟩).isValid = true ∧
    "image/gif" ∉ IMAGE_ALLOWED_TYPES ∧
    (validatePDFFile ⟨"application/pdf", 100, 25⟩).isValid = true ∧
    PDF_MAX_PAGES < 25 := by
  refine ⟨?_, by decide, ?_, by decide⟩ <;> decide

/-- C4 (amended): `validateImageFile` accepts exactly the files whose MIME
type starts with "image/" (any image subtype, not only the allowed-types
list) and whose size is at most 5 MB; `validatePDFFile` accepts exactly the
files whose MIME type is "application/pdf" and whose size is at most 10 MB
(the 20-page limit is not checked client-side); every rejected file gets a
validation error message. -/
theorem claim_C4_validation_characterization (f : JSFile) :
    ((validateImageFile f).isValid = true ↔
      (strStartsWith f.type "image/" = true ∧ f.size ≤ IMAGE_MAX_SIZE)) ∧
    ((validatePDFFile f).isValid = true ↔
      (f.type = "application/pdf" ∧ f.size ≤ PDF_MAX_SIZE)) ∧
    ((validateImageFile f).isValid = false →
      ((validateImageFile f).error).isSome = true) ∧
    ((validatePDFFile f).isValid = false →
      ((validatePDFFile f).error).isSome = true) := by
  refine ⟨?_, ?_, ?_, ?_⟩ <;>
    simp only [validateImageFile, validatePDFFile] <;>
    split_ifs <;> simp_all

/-- Concrete instantiation of C4 (amended): a small PNG image is accepted,
and a text file offered as a PDF is rejected with an error message. -/
theorem claim_C4_witness :
    (validateImageFile ⟨"image/png", 100, 1⟩).isValid = true ∧
    ((validatePDFFile ⟨"text/plain", 100, 1⟩).error).isSome = true :=
  ⟨(claim_C4_validation_characterization ⟨"image/png", 100, 1⟩).1.mpr
      ⟨by decide, by decide⟩,
   (claim_C4_validation_characterization ⟨"text/plain", 100, 1⟩).2.2.2
      (by decide)⟩

end DocPlatform

namespace DocPlatform

/-! ### C10: `generateUniqueDocumentName` and file extensions
(src/unnamed/part_004, lines 287–292 and 310–312), embedded on the
character sequences of the JS strings -/

/-- The last segment of `filename.split('.')` — the text after the final
dot, or the whole name when it has no dot (JS `split('.').pop()`). -/
def lastSegment (l : List Char) : List Char :=
  (l.reverse.takeWhile (fun c => c ≠ '.')).reverse

/-- `DocumentService.getFileExtension` (src/unnamed/part_004, lines 310–312):
`filename.split('.').pop()?.toLowerCase() || ''`. -/
def getFileExtension (l : List Char) : List Char :=
  (lastSegment l).map Char.toLower

/-- The JS regex replacement `originalName.replace(/\.[^/.]+$/, '')` used for
`nameWithoutExtension`: the regex matches exactly when the text after the
final dot is non-empty and free of '/' (it is free of '.' by construction),
and the replacement removes that final dot and everything after it. -/
def stripDotExtension (l : List Char) : List Char :=
  if ('.' ∈ l) ∧ lastSegment l ≠ [] ∧ ('/' ∉ lastSegment l) then
    l.take (l.length - ((lastSegment l).length + 1))
  else
    l

/-- `DocumentService.generateUniqueDocumentName` (src/unnamed/part_004,
lines 287–292), with the `Date.now()` timestamp as an opaque character
string `ts`: returns
`nameWithoutExtension ++ "_" ++ ts ++ (extension ? "." ++ extension : "")`
where `extension = originalName.split('.').pop()` (the empty string is the
only falsy value `pop()` can produce here, since `split` never returns an
empty array). -/
def generateUniqueDocumentName (l ts : List Char) : List Char :=
  stripDotExtension l ++ '_' :: ts ++
    (if lastSegment l ≠ [] then '.' :: lastSegment l else [])

theorem takeWhile_append_stop (p : Char → Bool) (l₁ : List Char) (c : Char)
    (l₂ : List Char) (h1 : ∀ a ∈ l₁, p a = true) (hc : p c = false) :
    (l₁ ++ c :: l₂).takeWhile p = l₁ := by
  induction l₁ with
  | nil => simp [List.takeWhile_cons, hc]
  | cons a as ih =>
      have ha : p a = true := h1 a (List.mem_cons_self a as)
      simp only [List.cons_append, List.takeWhile_cons, ha, if_true]
      rw [ih (fun x hx => h1 x (List.mem_cons_of_mem a hx))]

theorem takeWhile_of_all (p : Char → Bool) (l : List Char)
    (h : ∀ a ∈ l, p a = true) : l.takeWhile p = l := by
  induction l with
  | nil => rfl
  | cons a as ih =>
      simp only [List.takeWhile_cons, h a (List.mem_cons_self a as), if_true]
      rw [ih (fun x hx => h x (List.mem_cons_of_mem a hx))]

theorem lastSegment_append_dot (x e : List Char) (he : '.' ∉ e) :
    lastSegment (x ++ '.' :: e) = e := by
  rw [lastSegment, List.reverse_append, List.reverse_cons, List.append_assoc,
      List.singleton_append,
      takeWhile_append_stop _ _ _ _ ?_ (by simp), List.reverse_reverse]
  intro a ha
  rw [List.mem_reverse] at ha
  have hne : a ≠ '.' := fun hEq => he (hEq ▸ ha)
  simpa using hne

theorem lastSegment_of_no_dot (l : List Char) (h : '.' ∉ l) :
    lastSegment l = l := by
  rw [lastSegment, takeWhile_of_all, List.reverse_reverse]
  intro a ha
  rw [List.mem_reverse] at ha
  have hne : a ≠ '.' := fun hEq => h (hEq ▸ ha)
  simpa using hne

theorem stripDotExtension_append_dot (x e : List Char) (he : '.' ∉ e)
    (hne : e ≠ []) (hs : '/' ∉ e) :
    stripDotExtension (x ++ '.' :: e) = x := by
  have hl := lastSegment_append_dot x e he
  rw [stripDotExtension, if_pos]
  · rw [hl]
    have hlen : (x ++ '.' :: e).length - (e.length + 1) = x.length := by
      simp [List.length_append]
    rw [hlen, List.take_left]
  · exact ⟨List.mem_append_right x (List.mem_cons_self _ _), by rw [hl]; exact hne,
      by rw [hl]; exact hs⟩

/-- C10 counterexample: the filename "report" has no extension (no dot at
all), yet `generateUniqueDocumentName` appends "." followed by the whole
original name — because `"report".split('.').pop()` is `"report"`, which is
truthy — instead of appending nothing as the claim states. -/
theorem claim_C10_counterexample :
    generateUniqueDocumentName ("report".toList) ("123".toList) =
      ("report_123.report".toList) ∧
    ('.' ∉ "report".toList) := by
  refine ⟨by decide, by decide⟩

/-- C10 (amended): for a filename of the shape `base ++ "." ++ e` with `e`
non-empty and free of '.' and '/', the generated name is
`base ++ "_" ++ ts ++ "." ++ e` and its extension is still `e`.  For a
filename with no dot at all, `split('.').pop()` yields the whole name
(truthy), so the result is `name ++ "_" ++ ts ++ "." ++ name` — not the
claimed `name ++ "_" ++ ts`.  No dot is appended exactly when the text
after the final dot is empty, i.e. the name ends in '.'. -/
theorem claim_C10_extension_behaviour :
    (∀ base e ts : List Char, e ≠ [] → '.' ∉ e → '/' ∉ e →
        generateUniqueDocumentName (base ++ '.' :: e) ts =
          base ++ '_' :: ts ++ '.' :: e ∧
        lastSegment (generateUniqueDocumentName (base ++ '.' :: e) ts) = e) ∧
    (∀ name ts : List Char, '.' ∉ name → name ≠ [] →
        generateUniqueDocumentName name ts =
          name ++ '_' :: ts ++ '.' :: name) ∧
    (∀ name ts : List Char, lastSegment name = [] →
        generateUniqueDocumentName name ts = stripDotExtension name ++ '_' :: ts) := by
  refine ⟨?_, ?_, ?_⟩
  · intro base e ts hne hdot hslash
    have hl := lastSegment_append_dot base e hdot
    have hres : generateUniqueDocumentName (base ++ '.' :: e) ts =
        base ++ '_' :: ts ++ '.' :: e := by
      rw [generateUniqueDocumentName, hl, if_pos hne,
          stripDotExtension_append_dot base e hdot hne hslash]
    refine ⟨hres, ?_⟩
    rw [hres]
    have : base ++ '_' :: ts ++ '.' :: e = (base ++ '_' :: ts) ++ '.' :: e := by
      simp [List.append_assoc]
    rw [this, lastSegment_append_dot _ e hdot]
  · intro name ts hdot hne
    have hl := lastSegment_of_no_dot name hdot
    rw [generateUniqueDocumentName, hl, if_pos hne, stripDotExtension,
        if_neg (fun hcon => hdot hcon.1)]
  · intro name ts hseg
    rw [generateUniqueDocumentName, hseg]
    simp

/-- Concrete instantiation of C10 (amended): "archive.tar.gz" keeps its
"gz" extension, and the dot-less "report" gets "." plus the whole original
name appended. -/
theorem claim_C10_witness :
    generateUniqueDocumentName ("archive.tar.gz".toList) ("99".toList) =
      ("archive.tar_99.gz".toList) ∧
    generateUniqueDocumentName ("report".toList) ("99".toList) =
      ("report_99.report".toList) := by
  constructor
  · have heq : ("archive.tar.gz".toList) =
        ("archive.tar".toList) ++ '.' :: ("gz".toList) := by decide
    rw [heq,
      (claim_C10_extension_behaviour.1 ("archive.tar".toList) ("gz".toList)
        ("99".toList) (by decide) (by decide) (by decide)).1]
    decide
  · rw [claim_C10_extension_behaviour.2.1 ("report".toList) ("99".toList)
      (by decide) (by decide)]
    decide

end DocPlatform

namespace DocPlatform

/-! ### The summarization job queue
(configuration from src/terraform/11-pubsub.tf; the queue itself is managed
GCP infrastructure, so its delivery semantics are modelled from the spec) -/

/-- The fields of `google_pubsub_subscription.summarization_jobs_subscription`
relevant to delivery semantics. -/
structure SubscriptionConfig where
  ackDeadlineSeconds : ℕ
  maxDeliveryAttempts : ℕ
  messageRetentionSeconds : ℕ
  exactlyOnceDelivery : Bool
deriving DecidableEq, Repr

/-- The configured main subscription (src/terraform/11-pubsub.tf, lines
20–44): ack deadline 300 s, dead-letter after `max_delivery_attempts = 5`,
retention 345600 s, `enable_exactly_once_delivery = true`. -/
def summarizationJobsSubscription : SubscriptionConfig :=
  ⟨300, 5, 345600, true⟩

/-- The queue-side events in the life of one job message. -/
inductive QueueLabel where
  | deliver
  | expire
  | ack
  | deadLetter
deriving DecidableEq, Repr

/-- Where one job message stands with respect to the main subscription:
still visible for delivery (with its accumulated delivery-attempt count),
outstanding at a consumer inside the ack deadline, acknowledged, or routed
to the dead-letter topic. -/
inductive MessageState where
  | visible (attempts : ℕ)
  | outstanding (attempts : ℕ)
  | acked
  | deadLettered
deriving DecidableEq, Repr

/-- A message is gone from the main subscription. -/
def MessageState.removed : MessageState → Bool
  | .acked => true
  | .deadLettered => true
  | _ => false

/-- Modelled from the spec: the delivery semantics the pipeline depends on
(§4.2 and the glossary), instantiated with the terraform configuration —
the queue implementation itself is managed GCP infrastructure absent from
src.  A visible message whose attempt count is below the maximum can be
delivered (incrementing the count); a delivered-but-unacknowledged message
whose ack deadline elapses becomes visible again; an outstanding message
can be acknowledged; a visible message whose attempt count has reached
`max_delivery_attempts` is routed to the dead-letter topic. -/
inductive QueueStep (cfg : SubscriptionConfig) :
    MessageState → QueueLabel → MessageState → Prop where
  | deliver (k : ℕ) (h : k < cfg.maxDeliveryAttempts) :
      QueueStep cfg (.visible k) .deliver (.outstanding (k + 1))
  | expire (k : ℕ) :
      QueueStep cfg (.outstanding k) .expire (.visible k)
  | ack (k : ℕ) :
      QueueStep cfg (.outstanding k) .ack .acked
  | deadLetter (k : ℕ) (h : cfg.maxDeliveryAttempts ≤ k) :
      QueueStep cfg (.visible k) .deadLetter .deadLettered

/-- C6: an outstanding message not acknowledged within the ack deadline
becomes visible again and (below the attempt cap) is redelivered to some
consumer; and a message leaves the main subscription only through an
acknowledgment or through dead-letter routing. -/
theorem claim_C6_at_least_once_delivery :
    (∀ k : ℕ, QueueStep summarizationJobsSubscription
        (.outstanding k) .expire (.visible k)) ∧
    (∀ k : ℕ, k < summarizationJobsSubscription.maxDeliveryAttempts →
        QueueStep summarizationJobsSubscription
          (.visible k) .deliver (.outstanding (k + 1))) ∧
    (∀ (s : MessageState) (lab : QueueLabel) (t : MessageState),
        QueueStep summarizationJobsSubscription s lab t → t.removed = true →
        lab = .ack ∨ lab = .deadLetter) := by
  refine ⟨fun k => .expire k, fun k h => .deliver k h, ?_⟩
  intro s lab t h ht
  cases h <;> simp_all [MessageState.removed]

/-- Concrete instantiation of C6: an expired first delivery is redelivered,
and an acknowledgment is one of the two removal events. -/
theorem claim_C6_witness :
    QueueStep summarizationJobsSubscription (.outstanding 1) .expire (.visible 1) ∧
    QueueStep summarizationJobsSubscription (.visible 1) .deliver (.outstanding 2) ∧
    (QueueLabel.ack = QueueLabel.ack ∨ QueueLabel.ack = QueueLabel.deadLetter) :=
  ⟨claim_C6_at_least_once_delivery.1 1,
   claim_C6_at_least_once_delivery.2.1 1 (by decide),
   claim_C6_at_least_once_delivery.2.2 (.outstanding 1) .ack .acked (.ack 1) rfl⟩

/-! ### The document store and the worker's per-message handling
(modelled from the spec; the backend services are absent from src) -/

/-- A document row of the store, with the fields of the spec's data model
as they appear in the API types of src/frontend/lib/types.ts. -/
structure StoredDocument where
  document_id : String
  owner_id : String
  image_name : String
  status : DocumentStatus
  extracted_text : String
  summary : Option String
  s3_url : Option String
  created_at : String
  updated_at : Option String
deriving DecidableEq, Repr

/-- Modelled from the spec: the worker's per-message processing (§4.4) —
the summarization worker service is absent from src.  An already-terminal
document makes redelivery a no-op that acknowledges the message; a
successful summarization writes the summary, advances the status to
`completed` and acknowledges; a failed summarization leaves the message
unacknowledged, and once the delivery-attempt count has reached the
subscription's maximum the document is marked `failed`.  Returns the
updated document and whether the message is acknowledged. -/
def workerHandleMessage (cfg : SubscriptionConfig) (doc : StoredDocument)
    (attempts : ℕ) (summaryResult : Option String) : StoredDocument × Bool :=
  if doc.status.isTerminal then
    (doc, true)
  else
    match summaryResult with
    | some s => ({doc with summary := some s, status := .completed}, true)
    | none =>
        if cfg.maxDeliveryAttempts ≤ attempts then
          ({doc with status := .failed}, false)
        else
          (doc, false)

/-- C3 counterexample: under the configured dead-letter policy
(`max_delivery_attempts = 5` in src/terraform/11-pubsub.tf), a job whose
processing has failed on 3 consecutive delivery attempts is not routed to
the dead-letter path — it is redelivered from the main queue instead. -/
theorem claim_C3_counterexample :
    ¬ QueueStep summarizationJobsSubscription
        (.visible 3) .deadLetter .deadLettered ∧
    QueueStep summarizationJobsSubscription
      (.visible 3) .deliver (.outstanding 4) := by
  constructor
  · intro h
    cases h with
    | deadLetter k hk => revert hk; decide
  · exact .deliver 3 (by decide)

/-- C3 (amended): once a job's delivery-attempt count reaches the
configured maximum of 5 (not 3), the job is routed to the dead-letter
path, can no longer be delivered from the main queue, the dead-lettered
message admits no further queue event, and the worker marks the (still
non-terminal) document `failed`. -/
theorem claim_C3_dead_letter_after_max_attempts :
    (∀ k : ℕ, summarizationJobsSubscription.maxDeliveryAttempts ≤ k →
        QueueStep summarizationJobsSubscription
          (.visible k) .deadLetter .deadLettered ∧
        ∀ t : MessageState, ¬ QueueStep summarizationJobsSubscription
          (.visible k) .deliver t) ∧
    (∀ (lab : QueueLabel) (t : MessageState),
        ¬ QueueStep summarizationJobsSubscription .deadLettered lab t) ∧
    (∀ (doc : StoredDocument) (k : ℕ), doc.status.isTerminal = false →
        summarizationJobsSubscription.maxDeliveryAttempts ≤ k →
        ((workerHandleMessage summarizationJobsSubscription doc k none).1).status =
          .failed) := by
  refine ⟨?_, ?_, ?_⟩
  · intro k hk
    refine ⟨.deadLetter k hk, ?_⟩
    intro t h
    cases h with
    | deliver k hlt => omega
  · intro lab t h
    cases h
  · intro doc k hterm hk
    rw [workerHandleMessage, if_neg (by rw [hterm]; exact Bool.false_ne_true),
        if_pos hk]

/-- Concrete instantiation of C3 (amended): at 5 failed attempts the job is
dead-lettered and the document in `processing_summary` moves to `failed`. -/
theorem claim_C3_witness :
    QueueStep summarizationJobsSubscription
      (.visible 5) .deadLetter .deadLettered ∧
    ((workerHandleMessage summarizationJobsSubscription
        ⟨"d1", "u1", "report", .processing_summary, "txt", none, none, "t0", none⟩
        5 none).1).status = .failed :=
  ⟨(claim_C3_dead_letter_after_max_attempts.1 5 (by decide)).1,
   claim_C3_dead_letter_after_max_attempts.2.2
     ⟨"d1", "u1", "report", .processing_summary, "txt", none, none, "t0", none⟩
     5 (by decide) (by decide)⟩

end DocPlatform

namespace DocPlatform

/-! ### C5: upload submission and the duplicate-name conflict
(client-side error mapping from src/unnamed/part_004 `uploadImage` /
`uploadPDF`; server behaviour modelled from the spec) -/

/-- Success response of an upload, from src/frontend/lib/types.ts
`JobAcceptedResponse`. -/
structure JobAcceptedResponse where
  message : String
  document_id : String
  image_name : String
  extracted_text : String
  s3_url : String
deriving DecidableEq, Repr

/-- Whether the store already holds a non-deleted document with this
`(owner_id, display_name)` pair. -/
def nameExists (docs : List StoredDocument) (owner name : String) : Bool :=
  docs.any (fun d => d.owner_id = owner ∧ d.image_name = name)

/-- Modelled from the spec: the extraction backend's upload submission
(§4.1) — the backend service is absent from src.  A duplicate
`(owner_id, display_name)` is rejected with HTTP 409 and no document is
created; a fresh name creates exactly one document row and returns the
accepted-job response.  Returns the server result and the updated store. -/
def submitUpload (docs : List StoredDocument) (newDoc : StoredDocument) :
    Except (ℕ × String) JobAcceptedResponse × List StoredDocument :=
  if nameExists docs newDoc.owner_id newDoc.image_name then
    (.error (409, "Document with this name already exists"), docs)
  else
    (.ok ⟨"Text extracted successfully", newDoc.document_id, newDoc.image_name,
        newDoc.extracted_text, (newDoc.s3_url).getD ""⟩,
     newDoc :: docs)

/-- The catch block of `DocumentService.uploadImage` (src/unnamed/part_004,
lines 38–53): how an `ApiClientError` with the given status and message is
surfaced to the user. -/
def mapImageUploadError (status : ℕ) (message : String) : String :=
  if status = 409 then
    "A document with this name already exists. Please choose a different name."
  else if status = 413 then
    "File is too large. Please select a smaller image."
  else if status = 400 then
    (if message = "" then
       "Invalid file format. Please upload a PNG, JPG, or JPEG image."
     else message)
  else message

/-- JS `String.prototype.includes`, embedded on the character sequences. -/
def strContains (s sub : String) : Bool :=
  decide (List.IsInfix sub.toList s.toList)

/-- The catch block of `DocumentService.uploadPDF` (src/unnamed/part_004,
lines 72–90): how an `ApiClientError` with the given status and message is
surfaced to the user. -/
def mapPDFUploadError (status : ℕ) (message : String) : String :=
  if status = 409 then
    "A document with this name already exists. Please choose a different name."
  else if status = 413 then
    "PDF file is too large. Maximum size is 10MB."
  else if status = 400 then
    (if strContains message "too many pages" then
       "PDF has too many pages. Maximum is 20 pages."
     else if message = "" then
       "Invalid PDF file. Please upload a valid PDF document."
     else message)
  else message

/-- `DocumentService.uploadImage` over the modelled backend: submits and
maps any server error through the catch block. -/
def uploadImage (docs : List StoredDocument) (newDoc : StoredDocument) :
    Except String JobAcceptedResponse × List StoredDocument :=
  match submitUpload docs newDoc with
  | (.ok r, docs') => (.ok r, docs')
  | (.error (st, msg), docs') => (.error (mapImageUploadError st msg), docs')

/-- `DocumentService.uploadPDF` over the modelled backend: submits and maps
any server error through the catch block. -/
def uploadPDF (docs : List StoredDocument) (newDoc : StoredDocument) :
    Except String JobAcceptedResponse × List StoredDocument :=
  match submitUpload docs newDoc with
  | (.ok r, docs') => (.ok r, docs')
  | (.error (st, msg), docs') => (.error (mapPDFUploadError st msg), docs')

/-- C5: an upload (image or PDF) whose `(owner_id, display_name)` pair
already exists fails with the duplicate-name conflict message — the 409 is
surfaced, nothing is overwritten and no document is created — while an
upload with a fresh name by the same owner succeeds and creates exactly
one new document. -/
theorem claim_C5_duplicate_name_conflict :
    (∀ (docs : List StoredDocument) (newDoc : StoredDocument),
        nameExists docs newDoc.owner_id newDoc.image_name = true →
        (uploadImage docs newDoc).1 =
          .error "A document with this name already exists. Please choose a different name." ∧
        (uploadImage docs newDoc).2 = docs ∧
        (uploadPDF docs newDoc).1 =
          .error "A document with this name already exists. Please choose a different name." ∧
        (uploadPDF docs newDoc).2 = docs) ∧
    (∀ (docs : List StoredDocument) (newDoc : StoredDocument),
        nameExists docs newDoc.owner_id newDoc.image_name = false →
        (uploadImage docs newDoc).1 =
          .ok ⟨"Text extracted successfully", newDoc.document_id,
              newDoc.image_name, newDoc.extracted_text, (newDoc.s3_url).getD ""⟩ ∧
        (uploadImage docs newDoc).2 = newDoc :: docs) := by
  constructor
  · intro docs newDoc hdup
    have hsub : submitUpload docs newDoc =
        (.error (409, "Document with this name already exists"), docs) := by
      rw [submitUpload, if_pos hdup]
    refine ⟨?_, ?_, ?_, ?_⟩ <;>
      simp [uploadImage, uploadPDF, hsub, mapImageUploadError, mapPDFUploadError]
  · intro docs newDoc hfresh
    have hsub : submitUpload docs newDoc =
        (.ok ⟨"Text extracted successfully", newDoc.document_id, newDoc.image_name,
            newDoc.extracted_text, (newDoc.s3_url).getD ""⟩, newDoc :: docs) := by
      rw [submitUpload, if_neg (by rw [hfresh]; exact Bool.false_ne_true)]
    exact ⟨by rw [uploadImage, hsub], by rw [uploadImage, hsub]⟩

/-- Concrete instantiation of C5: with "report" already taken by owner
"u1", a second "report" upload by "u1" fails with the duplicate-name
message and leaves the store unchanged, while "report2" succeeds. -/
theorem claim_C5_witness :
    (uploadImage
        [⟨"d1", "u1", "report", .completed, "t", none, none, "t0", none⟩]
        ⟨"d2", "u1", "report", .uploading, "", none, none, "t1", none⟩).1 =
      .error "A document with this name already exists. Please choose a different name." ∧
    (uploadImage
        [⟨"d1", "u1", "report", .completed, "t", none, none, "t0", none⟩]
        ⟨"d2", "u1", "report2", .uploading, "", none, none, "t1", none⟩).2 =
      [⟨"d2", "u1", "report2", .uploading, "", none, none, "t1", none⟩,
       ⟨"d1", "u1", "report", .completed, "t", none, none, "t0", none⟩] :=
  ⟨(claim_C5_duplicate_name_conflict.1 _ _ (by decide)).1,
   (claim_C5_duplicate_name_conflict.2 _ _ (by decide)).2⟩

end DocPlatform

namespace DocPlatform

/-! ### C7: the document-fetch read path
(client from src/unnamed/part_004 `getDocument`; the backend route
`GET /extract/document/{name}` is modelled from the spec and is keyed by
display name, as the frontend call and src/README.md show) -/

/-- Modelled from the spec: the backend read path behind
`GET /extract/document/{name}` — the backend service is absent from src.
The lookup is scoped to the caller and keyed by the document's display
name (`image_name`), exactly as the frontend requests it
(`ENDPOINTS.EXTRACTION.GET_DOCUMENT + "/" + documentName`); a caller-owned
document of that name yields the `DocumentStatusResponse` fields, anything
else yields HTTP 404. -/
def getDocumentServer (docs : List StoredDocument) (caller name : String) :
    Except ℕ DocumentStatusResponse :=
  match docs.find? (fun d => d.owner_id = caller ∧ d.image_name = name) with
  | some d => .ok ⟨d.document_id, d.image_name, d.status, d.extracted_text,
      d.summary, d.s3_url, d.created_at, d.updated_at⟩
  | none => .error 404

/-- `DocumentService.getDocument` (src/unnamed/part_004, lines 120–136)
over the modelled backend: a 404 is surfaced as "Document not found.".
(The modelled server produces only 404 errors, so the catch block's other
branch, which relays `error.message`, is unreachable here.) -/
def getDocumentClient (docs : List StoredDocument) (caller name : String) :
    Except String DocumentStatusResponse :=
  match getDocumentServer docs caller name with
  | .ok r => .ok r
  | .error st =>
      if st = 404 then .error "Document not found."
      else .error "Failed to fetch document details."

/-- C7 counterexample: the read path is keyed by display name, not by
`document_id` — fetching an existing caller-owned document by its
`document_id` ("d1") returns the not-found error, while fetching it by its
name ("report") succeeds. -/
theorem claim_C7_counterexample :
    getDocumentClient
        [⟨"d1", "u1", "report", .completed, "text", some "sum", none, "t0", none⟩]
        "u1" "d1" = .error "Document not found." ∧
    (⟨"d1", "u1", "report", .completed, "text", some "sum", none, "t0", none⟩ :
        StoredDocument).document_id = "d1" ∧
    getDocumentClient
        [⟨"d1", "u1", "report", .completed, "text", some "sum", none, "t0", none⟩]
        "u1" "report" =
      .ok ⟨"d1", "report", .completed, "text", some "sum", none, "t0", none⟩ := by
  refine ⟨by rfl, by decide, by rfl⟩

/-- C7 (amended): the read path is keyed by the display name.  For every
store in which the caller owns exactly one document of the requested name,
the fetch returns its `document_id`, display name, status, extracted text,
summary (or `none`), timestamps and storage URI; when the caller owns no
document of that name — including when the identifier offered is a
`document_id` of an owned document rather than its name — the fetch fails
with the not-found error. -/
theorem claim_C7_fetch_keyed_by_name :
    (∀ (docs : List StoredDocument) (caller name : String) (d : StoredDocument),
        d ∈ docs → d.owner_id = caller → d.image_name = name →
        (∀ e ∈ docs, e.owner_id = caller → e.image_name = name → e = d) →
        getDocumentClient docs caller name =
          .ok ⟨d.document_id, d.image_name, d.status, d.extracted_text,
              d.summary, d.s3_url, d.created_at, d.updated_at⟩) ∧
    (∀ (docs : List StoredDocument) (caller name : String),
        (∀ d ∈ docs, ¬ (d.owner_id = caller ∧ d.image_name = name)) →
        getDocumentClient docs caller name = .error "Document not found.") := by
  constructor
  · intro docs caller name d hmem howner hname huniq
    rcases hfind : docs.find? (fun x => x.owner_id = caller ∧ x.image_name = name)
        with _ | e
    · rw [List.find?_eq_none] at hfind
      exact absurd (by simp [howner, hname]) (hfind d hmem)
    · have hp := List.find?_some hfind
      have hmem₂ := List.mem_of_find?_eq_some hfind
      simp only [decide_eq_true_eq] at hp
      have : e = d := huniq e hmem₂ hp.1 hp.2
      subst this
      rw [getDocumentClient, getDocumentServer, hfind]
  · intro docs caller name hnone
    have hfind : docs.find?
        (fun x => x.owner_id = caller ∧ x.image_name = name) = none := by
      rw [List.find?_eq_none]
      intro d hd
      simpa using hnone d hd
    rw [getDocumentClient, getDocumentServer, hfind]
    rfl

/-- Concrete instantiation of C7 (amended): a two-document store serves
"report" for its owner and rejects an unknown name. -/
theorem claim_C7_witness :
    getDocumentClient
        [⟨"d1", "u1", "report", .processing_summary, "text", none, none, "t0", none⟩,
         ⟨"d2", "u2", "report", .completed, "text2", some "s2", none, "t1", none⟩]
        "u1" "report" =
      .ok ⟨"d1", "report", .processing_summary, "text", none, none, "t0", none⟩ ∧
    getDocumentClient
        [⟨"d1", "u1", "report", .processing_summary, "text", none, none, "t0", none⟩]
        "u1" "missing" = .error "Document not found." := by
  constructor
  · exact claim_C7_fetch_keyed_by_name.1 _ "u1" "report"
      ⟨"d1", "u1", "report", .processing_summary, "text", none, none, "t0", none⟩
      (by decide) rfl rfl (by decide)
  · exact claim_C7_fetch_keyed_by_name.2 _ "u1" "missing" (by decide)

end DocPlatform

namespace DocPlatform

/-! ### C9: per-worker in-flight bound
(modelled from the spec §4.4 and the worker poll-loop snippet in
src/documentation/theory.md, lines 609–647: `receive_messages` with
`MaxNumberOfMessages=5` followed by one `asyncio.gather` over the batch) -/

/-- The jobs a single worker currently holds in flight (the tasks of the
batch its `asyncio.gather` is awaiting). -/
structure WorkerState where
  inFlight : List String
deriving DecidableEq, Repr

/-- Modelled from the spec: one worker's poll loop — the worker service
implementation is absent from src; the snippet in
src/documentation/theory.md shows the loop.  A new batch of at most 5
messages is fetched only when no task of the previous batch is still
running (`asyncio.gather` completes before the next `receive_messages`
call), the whole batch starts concurrently, and otherwise the only events
are individual tasks finishing (success, failure or timeout). -/
inductive WorkerStep : WorkerState → WorkerState → Prop where
  | fetch (batch : List String) (h : batch.length ≤ 5) :
      WorkerStep ⟨[]⟩ ⟨batch⟩
  | finish (s : WorkerState) (j : String) (h : j ∈ s.inFlight) :
      WorkerStep s ⟨s.inFlight.erase j⟩

/-- C9: every state a worker can reach from the idle state holds at most 5
jobs in flight; and while any task is still in flight, every possible step
strictly shrinks the in-flight set (no new batch can be fetched before the
current batch has fully finished). -/
theorem claim_C9_worker_in_flight_bound :
    (∀ s : WorkerState, Relation.ReflTransGen WorkerStep ⟨[]⟩ s →
        s.inFlight.length ≤ 5) ∧
    (∀ s t : WorkerState, WorkerStep s t → s.inFlight ≠ [] →
        t.inFlight.length < s.inFlight.length) := by
  constructor
  · intro s h
    induction h with
    | refl => simp
    | tail _ hstep ih =>
        cases hstep with
        | fetch batch hb => exact hb
        | finish _ j hj =>
            exact le_trans (List.Sublist.length_le (List.erase_sublist _ _)) ih
  · intro s t hstep hne
    cases hstep with
    | fetch batch hb => exact absurd rfl hne
    | finish _ j hj =>
        have hlen := List.length_erase_of_mem hj
        have hpos : 0 < s.inFlight.length :=
          List.length_pos.mpr (List.ne_nil_of_mem hj)
        show (s.inFlight.erase j).length < s.inFlight.length
        rw [hlen]
        omega

/-- Concrete instantiation of C9: a freshly fetched two-job batch respects
the bound, and finishing a job strictly shrinks the in-flight set. -/
theorem claim_C9_witness :
    (⟨["j1", "j2"]⟩ : WorkerState).inFlight.length ≤ 5 ∧
    (⟨["j1"]⟩ : WorkerState).inFlight.length <
      (⟨["j1", "j2"]⟩ : WorkerState).inFlight.length := by
  constructor
  · exact claim_C9_worker_in_flight_bound.1 ⟨["j1", "j2"]⟩
      (Relation.ReflTransGen.single (WorkerStep.fetch ["j1", "j2"] (by decide)))
  · have hstep : WorkerStep ⟨["j1", "j2"]⟩ ⟨["j1"]⟩ := by
      have h := WorkerStep.finish ⟨["j1", "j2"]⟩ "j2" (by decide)
      simpa using h
    exact claim_C9_worker_in_flight_bound.2 _ _ hstep (by decide)

end DocPlatform
